import Mathlib

/-!
Verification development for the reddit-research-tools repository.

The repository contains two batch pipelines, `src/analyze_mock.py` and
`src/analyze_live.py`, that load raw post records (from a mock JSON file or a
live API), normalize them, filter them by a time window and a subreddit
allowlist, annotate each post with the configured keywords occurring in its
text, sort the batch by relevance, and write reports.

This file gives a shallow embedding of those pipelines:
  * raw records are association lists of scalar JSON-like values (`JVal`),
    with Python truthiness (`pyFalsy`), `dict.get` (`pGet` / `pGetD`) and
    `int(...)` coercion (`pyInt`) made explicit;
  * fallible Python code (an `int(...)` call or an attribute access that can
    raise) is embedded in `Except String`;
  * the normalized post schema is `Post`; keyword annotation produces
    `EnrichedPost`; the in-place `list.sort` call is embedded as the
    state-passing step `sortStep`, whose second component is the contents of
    the list object after the call; the sort itself (`rank`) is the stable
    descending sort by the key triple used in the source.
-/

/-- Scalar JSON-like value stored in a raw record's fields, as Python would
hold it: null (None), integer, string or boolean. -/
inductive JVal where
  | null : JVal
  | int : Int → JVal
  | str : String → JVal
  | bool : Bool → JVal
deriving DecidableEq, Repr

/-- Python truthiness on scalar values: None, 0, the empty string and False
are falsy, everything else is truthy. -/
def pyFalsy : JVal → Bool
  | JVal.null => true
  | JVal.int n => n == 0
  | JVal.str s => s == ""
  | JVal.bool b => !b

/-- Decimal value of a digit list, most significant first. -/
def charsToNat (l : List Char) : Nat :=
  l.foldl (fun acc c => acc * 10 + (c.toNat - 48)) 0

/-- Python `int(s)` on a string: an optional minus sign followed by decimal
digits parses to the signed value, anything else raises ValueError. -/
def pyIntOfStr (s : String) : Except String Int :=
  match s.toList with
  | [] => Except.error "ValueError"
  | c :: rest =>
      if c = '-' then
        if !rest.isEmpty && rest.all (fun d => d.isDigit) then
          Except.ok (-(charsToNat rest : Int))
        else Except.error "ValueError"
      else
        if (c :: rest).all (fun d => d.isDigit) then
          Except.ok ((charsToNat (c :: rest) : Int))
        else Except.error "ValueError"

/-- Python `int(v)` on a scalar value: identity on integers, 0/1 on booleans,
integer-literal parsing on strings (raises ValueError on a non-numeric
string), and a TypeError on None. -/
def pyInt : JVal → Except String Int
  | JVal.int n => Except.ok n
  | JVal.bool b => Except.ok (if b then 1 else 0)
  | JVal.str s => pyIntOfStr s
  | JVal.null => Except.error "TypeError"

/-- Python `v or d` on scalar values: the default when `v` is falsy,
otherwise `v` itself. -/
def pyOr (v d : JVal) : JVal := if pyFalsy v then d else v

/-- Python `dict.get(key, default)` over an association-list record. -/
def pGetD : List (String × JVal) → String → JVal → JVal
  | [], _, d => d
  | kv :: rest, k, d => if kv.1 == k then kv.2 else pGetD rest k d

/-- Python `dict.get(key)`: `None` (here `JVal.null`) when the key is absent. -/
def pGet (r : List (String × JVal)) (k : String) : JVal := pGetD r k JVal.null

/-- Python `d[key] = v` on an association-list record: replace the first
binding of the key, or append a new one. -/
def setKey : List (String × JVal) → String → JVal → List (String × JVal)
  | [], k, v => [(k, v)]
  | kv :: rest, k, v => if kv.1 == k then (k, v) :: rest else kv :: setKey rest k v

/-- Raw item of the offline JSON dataset: either a mapping (a record given as
an association list) or some non-mapping value such as a bare number or
string, for which only a printable tag is kept. -/
inductive RawItem where
  | dict : List (String × JVal) → RawItem
  | nondict : String → RawItem
deriving DecidableEq, Repr

/-- Record produced by `load_mock_posts` in src/analyze_live.py lines 49-59:
the coerced integer fields together with the passed-through field values. -/
structure CleanedPost where
  subreddit : JVal
  id : JVal
  title : JVal
  selftext : JVal
  created_utc : Int
  score : Int
  num_comments : Int
  permalink : JVal
  url : JVal
deriving DecidableEq, Repr

/-- Embeds the engagement-field normalization `int(p.get(f) or 0)` used for
`score` and `num_comments` in src/analyze_live.py lines 55-56. -/
def normEngagement (v : JVal) : Except String Int := pyInt (pyOr v (JVal.int 0))

/-- Embeds the per-record body of `load_mock_posts`, src/analyze_live.py
lines 48-59, for the mapping at enumerate index `i`: the synthetic
`created_utc` fallback `now - i * 6 * 3600` when the stored value is absent
or falsy, the `int(...)` coercions (which can raise), and the field
defaulting of the remaining fields. -/
def cleanRecord (now : Int) (i : Nat) (r : List (String × JVal)) :
    Except String CleanedPost :=
  match pyInt (pyOr (pGet r "created_utc") (JVal.int (now - (i : Int) * 6 * 3600))) with
  | Except.error e => Except.error e
  | Except.ok created =>
    match normEngagement (pGet r "score") with
    | Except.error e => Except.error e
    | Except.ok score =>
      match normEngagement (pGet r "num_comments") with
      | Except.error e => Except.error e
      | Except.ok ncomments =>
        Except.ok
          { subreddit := pGetD r "subreddit" (JVal.str "")
            id := pGetD r "id" (JVal.str "")
            title := pGetD r "title" (JVal.str "")
            selftext := pyOr (pGetD r "selftext" (JVal.str "")) (JVal.str "")
            created_utc := created
            score := score
            num_comments := ncomments
            permalink := pyOr (pGet r "permalink") (pyOr (pGet r "link") (JVal.str ""))
            url := pyOr (pGetD r "url" (JVal.str "")) (JVal.str "") }

/-- Recursion worker for `load_mock_posts`, carrying the enumerate index.
Non-mapping items are skipped (they still consume an index); a raised
coercion error aborts the whole load, as the uncaught Python exception
would. -/
def loadMockGo (now : Int) : Nat → List RawItem → Except String (List CleanedPost)
  | _, [] => Except.ok []
  | i, RawItem.nondict _ :: rest => loadMockGo now (i + 1) rest
  | i, RawItem.dict r :: rest => do
      let c ← cleanRecord now i r
      let cs ← loadMockGo now (i + 1) rest
      Except.ok (c :: cs)

/-- Embeds `load_mock_posts` from src/analyze_live.py lines 37-60: the `now`
snapshot is a parameter, the JSON array is the list of raw items. -/
def load_mock_posts (now : Int) (items : List RawItem) :
    Except String (List CleanedPost) :=
  loadMockGo now 0 items

/-- Embeds the per-record `created_utc` assignment of `load_posts`,
src/analyze_mock.py lines 35-38: when the stored value is absent or falsy the
record is updated in place with the synthetic timestamp. -/
def mockAssignCreated (now : Int) (i : Nat) (r : List (String × JVal)) :
    List (String × JVal) :=
  if pyFalsy (pGet r "created_utc") then
    setKey r "created_utc" (JVal.int (now - (i : Int) * 6 * 3600))
  else r

/-- Recursion worker for `load_posts` of src/analyze_mock.py lines 30-39.
That loader calls `p.get` on every item with no mapping check, so a
non-mapping item raises AttributeError, aborting the whole load. -/
def loadPostsGo (now : Int) : Nat → List RawItem → Except String (List RawItem)
  | _, [] => Except.ok []
  | _, RawItem.nondict _ :: _ => Except.error "AttributeError"
  | i, RawItem.dict r :: rest => do
      let rest2 ← loadPostsGo now (i + 1) rest
      Except.ok (RawItem.dict (mockAssignCreated now i r) :: rest2)

/-- Embeds `load_posts` from src/analyze_mock.py lines 30-39. -/
def load_posts (now : Int) (items : List RawItem) : Except String (List RawItem) :=
  loadPostsGo now 0 items

/-- Canonical post schema flowing through filtering and enrichment (the dict
shape built by the loaders and by `fetch_posts`). -/
structure Post where
  subreddit : String
  id : String
  title : String
  selftext : String
  created_utc : Int
  score : Int
  num_comments : Int
  permalink : String
  url : String
deriving DecidableEq, Repr

/-- Contiguous-segment containment on character lists, the semantics of the
Python substring test `pat in t`. -/
def segIn (pat : List Char) : List Char → Bool
  | [] => pat.isEmpty
  | c :: rest => pat.isPrefixOf (c :: rest) || segIn pat rest

/-- Python `pat in t` on strings: substring containment. -/
def strIn (pat t : String) : Bool := segIn pat.toList t.toList

/-- Python `s.lower()`: lower-case every character. -/
def strLower (s : String) : String := ⟨s.toList.map Char.toLower⟩

/-- Embeds `keyword_hits` from src/analyze_mock.py lines 44-50 and
src/analyze_live.py lines 33-35: lower-case the text once, then keep, in
configured order, every keyword whose lower-cased form is a substring. -/
def keyword_hits (text : String) (keywords : List String) : List String :=
  keywords.filter fun k => strIn (strLower k) (strLower text)

/-- Post annotated with its keyword hits, as built by the enrichment loops in
src/analyze_mock.py lines 72-79 and src/analyze_live.py lines 163-170. -/
structure EnrichedPost extends Post where
  keyword_hits : List String
  keyword_hit_count : Nat
deriving DecidableEq, Repr

/-- Embeds the enrichment loop (src/analyze_mock.py lines 72-79,
src/analyze_live.py lines 163-170): combine title and selftext with a single
space, compute the hits, and store the hits together with their length. -/
def enrich (keywords : List String) (posts : List Post) : List EnrichedPost :=
  posts.map fun p =>
    let hits := keyword_hits (p.title ++ " " ++ p.selftext) keywords
    { toPost := p, keyword_hits := hits, keyword_hit_count := hits.length }

/-- Embeds `within_hours` from src/analyze_mock.py lines 41-42, with the
`time.time()` reading made an explicit `now` parameter. -/
def within_hours (now created_utc hours : Int) : Bool :=
  decide (created_utc ≥ now - hours * 3600)

/-- Embeds the subreddit/window filter loop of src/analyze_mock.py lines
63-69: skip a post when the allowlist is nonempty and does not contain its
subreddit, or when it is out of the window. -/
def filter_posts_mock (now hours : Int) (subreddits : List String)
    (posts : List Post) : List Post :=
  posts.filter fun p =>
    !(!subreddits.isEmpty && !subreddits.contains p.subreddit) &&
      within_hours now p.created_utc hours

/-- Embeds the offline-branch filter of src/analyze_live.py lines 154-157:
keep a post when the allowlist is empty or contains its subreddit, and its
`created_utc` is at least the cutoff. -/
def filter_posts_live (now hours : Int) (subreddits : List String)
    (posts : List Post) : List Post :=
  posts.filter fun p =>
    (subreddits.isEmpty || subreddits.contains p.subreddit) &&
      decide (p.created_utc ≥ now - hours * 3600)

/-- Raw live post as surfaced by the external API client in `fetch_posts`
(src/analyze_live.py lines 115-131): attributes read through `getattr` with a
default are optional. -/
structure RawLivePost where
  id : String
  title : String
  selftext : Option String
  created_utc : Option Int
  score : Option Int
  num_comments : Option Int
  permalink : Option String
  url : Option String
deriving DecidableEq, Repr

/-- Embeds the dict built for one kept live post, src/analyze_live.py lines
121-131. -/
def livePostToPost (sub : String) (p : RawLivePost) : Post :=
  { subreddit := sub
    id := p.id
    title := p.title
    selftext := p.selftext.getD ""
    created_utc := p.created_utc.getD 0
    score := p.score.getD 0
    num_comments := p.num_comments.getD 0
    permalink := "https://reddit.com" ++ p.permalink.getD ""
    url := p.url.getD "" }

/-- Embeds the per-subreddit scan of `fetch_posts`, src/analyze_live.py lines
115-132: posts are consumed newest-first and the scan breaks at the first
post older than the cutoff. -/
def fetchSub (cutoff : Int) (sub : String) : List RawLivePost → List Post
  | [] => []
  | p :: rest =>
      if p.created_utc.getD 0 < cutoff then []
      else livePostToPost sub p :: fetchSub cutoff sub rest

/-- Embeds `fetch_posts` from src/analyze_live.py lines 104-137: the cutoff
is `now - hours * 3600` and each configured subreddit contributes its scanned
feed. -/
def fetch_posts (now hours : Int) (subs : List (String × List RawLivePost)) :
    List Post :=
  (subs.map fun sp => fetchSub (now - hours * 3600) sp.1 sp.2).flatten

/-- Ranking key of an enriched post, the tuple built by the sort lambda in
src/analyze_mock.py line 82 and src/analyze_live.py line 173. -/
def keyOf (e : EnrichedPost) : Nat × Int × Int :=
  (e.keyword_hit_count, e.score, e.num_comments)

/-- Lexicographic strict order on key triples, Python tuple `<`. -/
def tripleLt (x y : Nat × Int × Int) : Prop :=
  x.1 < y.1 ∨ (x.1 = y.1 ∧ (x.2.1 < y.2.1 ∨ (x.2.1 = y.2.1 ∧ x.2.2 < y.2.2)))

/-- Lexicographic order on key triples, Python tuple `<=`. -/
def tripleLe (x y : Nat × Int × Int) : Prop :=
  x.1 < y.1 ∨ (x.1 = y.1 ∧ (x.2.1 < y.2.1 ∨ (x.2.1 = y.2.1 ∧ x.2.2 ≤ y.2.2)))

instance instDecidableTripleLt (x y : Nat × Int × Int) : Decidable (tripleLt x y) := by
  unfold tripleLt; infer_instance

instance instDecidableTripleLe (x y : Nat × Int × Int) : Decidable (tripleLe x y) := by
  unfold tripleLe; infer_instance

/-- Stable descending insertion: `a` is placed before the first element whose
key is not strictly greater than its own, so it stays behind every
earlier-input element of equal key. -/
def insertDesc (a : EnrichedPost) : List EnrichedPost → List EnrichedPost
  | [] => [a]
  | b :: l =>
      if tripleLt (keyOf a) (keyOf b) then b :: insertDesc a l
      else a :: b :: l

/-- Embeds the ordering computed by
`enriched.sort(key=lambda x: (hit_count, score, comments), reverse=True)` in
src/analyze_mock.py line 82 and src/analyze_live.py line 173: Python's sort
with `reverse=True` is the stable descending sort by the key tuple, which
this stable insertion sort computes. -/
def rank : List EnrichedPost → List EnrichedPost
  | [] => []
  | a :: l => insertDesc a (rank l)

/-- State-passing embedding of the statement `enriched.sort(...)`: the first
component is the call's return value (Python `list.sort` returns None, here
`Unit`), the second is the contents of the list object after the call. -/
def sortStep (l : List EnrichedPost) : Unit × List EnrichedPost :=
  ((), rank l)

/-- Concrete enriched post used in the spec's ranking scenario: 2 keyword
hits and score 10. -/
def postA : EnrichedPost :=
  { subreddit := "r1", id := "A", title := "", selftext := "", created_utc := 0
    score := 10, num_comments := 0, permalink := "", url := ""
    keyword_hits := ["k1", "k2"], keyword_hit_count := 2 }

/-- Concrete enriched post used in the spec's ranking scenario: 2 keyword
hits and score 20. -/
def postB : EnrichedPost :=
  { subreddit := "r1", id := "B", title := "", selftext := "", created_utc := 0
    score := 20, num_comments := 0, permalink := "", url := ""
    keyword_hits := ["k1", "k2"], keyword_hit_count := 2 }

/-- Concrete enriched post used in the spec's ranking scenario: 1 keyword hit
and score 100. -/
def postC : EnrichedPost :=
  { subreddit := "r1", id := "C", title := "", selftext := "", created_utc := 0
    score := 100, num_comments := 0, permalink := "", url := ""
    keyword_hits := ["k1"], keyword_hit_count := 1 }

/-- Concrete post far older than any reasonable window cutoff. -/
def oldPost : Post :=
  { subreddit := "r1", id := "old", title := "old post", selftext := ""
    created_utc := -999999, score := 0, num_comments := 0, permalink := "", url := "" }

/-- Concrete post whose title is the spec's keyword-matching scenario text. -/
def fixPost : Post :=
  { subreddit := "r1", id := "f1", title := "Need a Fix for my car", selftext := ""
    created_utc := 0, score := 0, num_comments := 0, permalink := "", url := "" }

/-- Enrichment of `fixPost` under the keyword list of the spec's scenario. -/
def fixEnriched : EnrichedPost :=
  { toPost := fixPost, keyword_hits := ["fix"], keyword_hit_count := 1 }

/-- Concrete offline dataset of six records where only the record at
enumerate index 5 is missing `created_utc`. -/
def itemsDemo : List RawItem :=
  [RawItem.dict [("created_utc", JVal.int 1)],
   RawItem.dict [("created_utc", JVal.int 1)],
   RawItem.dict [("created_utc", JVal.int 1)],
   RawItem.dict [("created_utc", JVal.int 1)],
   RawItem.dict [("created_utc", JVal.int 1)],
   RawItem.dict [("id", JVal.str "p5")]]

/-- Cleaned form of the empty record at enumerate index 5 with run time
1000000: every field defaulted and the synthetic timestamp assigned. -/
def cDemo : CleanedPost :=
  { subreddit := JVal.str "", id := JVal.str "", title := JVal.str ""
    selftext := JVal.str "", created_utc := 892000, score := 0, num_comments := 0
    permalink := JVal.str "", url := JVal.str "" }

theorem tripleLt_tripleLe (x y : Nat × Int × Int) (h : tripleLt x y) : tripleLe x y := by
  obtain ⟨a, b, c⟩ := x
  obtain ⟨d, e, f⟩ := y
  simp only [tripleLt, tripleLe] at h ⊢
  omega

theorem triple_not_lt (x y : Nat × Int × Int) : ¬ tripleLt x y ↔ tripleLe y x := by
  obtain ⟨a, b, c⟩ := x
  obtain ⟨d, e, f⟩ := y
  simp only [tripleLt, tripleLe]
  omega

theorem tripleLe_trans (x y z : Nat × Int × Int) (h1 : tripleLe x y) (h2 : tripleLe y z) :
    tripleLe x z := by
  obtain ⟨a, b, c⟩ := x
  obtain ⟨d, e, f⟩ := y
  obtain ⟨g, i, j⟩ := z
  simp only [tripleLe] at h1 h2 ⊢
  omega

theorem tripleLt_irrefl (x : Nat × Int × Int) : ¬ tripleLt x x := by
  obtain ⟨a, b, c⟩ := x
  simp only [tripleLt]
  omega

theorem mem_insertDesc (a x : EnrichedPost) (l : List EnrichedPost) :
    x ∈ insertDesc a l ↔ x = a ∨ x ∈ l := by
  induction l with
  | nil => simp [insertDesc]
  | cons b t ih =>
    by_cases h : tripleLt (keyOf a) (keyOf b)
    · simp only [insertDesc, if_pos h, List.mem_cons, ih]
      tauto
    · simp [insertDesc, h]

theorem pairwise_insertDesc (a : EnrichedPost) (l : List EnrichedPost)
    (h : l.Pairwise fun x y => tripleLe (keyOf y) (keyOf x)) :
    (insertDesc a l).Pairwise fun x y => tripleLe (keyOf y) (keyOf x) := by
  induction l with
  | nil => simp [insertDesc]
  | cons b t ih =>
    rcases List.pairwise_cons.mp h with ⟨hb, ht⟩
    by_cases hab : tripleLt (keyOf a) (keyOf b)
    · simp only [insertDesc, if_pos hab]
      refine List.pairwise_cons.mpr ⟨?_, ih ht⟩
      intro x hx
      rcases (mem_insertDesc a x t).mp hx with rfl | hx
      · exact tripleLt_tripleLe _ _ hab
      · exact hb x hx
    · simp only [insertDesc, if_neg hab]
      refine List.pairwise_cons.mpr ⟨?_, h⟩
      intro x hx
      rcases List.mem_cons.mp hx with rfl | hx
      · exact (triple_not_lt _ _).mp hab
      · exact tripleLe_trans _ _ _ (hb x hx) ((triple_not_lt _ _).mp hab)

theorem rank_pairwise (l : List EnrichedPost) :
    (rank l).Pairwise fun x y => tripleLe (keyOf y) (keyOf x) := by
  induction l with
  | nil => simp [rank]
  | cons a t ih => exact pairwise_insertDesc a (rank t) ih

theorem filter_insertDesc_pos (a : EnrichedPost) (k : Nat × Int × Int)
    (l : List EnrichedPost) (ha : keyOf a = k) :
    (insertDesc a l).filter (fun e => decide (keyOf e = k)) =
      a :: l.filter (fun e => decide (keyOf e = k)) := by
  induction l with
  | nil => simp [insertDesc, List.filter, ha]
  | cons b t ih =>
    by_cases hab : tripleLt (keyOf a) (keyOf b)
    · have hbk : ¬ (keyOf b = k) := by
        intro hbk
        rw [ha, ← hbk] at hab
        exact tripleLt_irrefl _ hab
      simp only [insertDesc, if_pos hab, List.filter_cons, decide_eq_true_eq,
        if_neg hbk, ih]
    · simp only [insertDesc, if_neg hab, List.filter_cons, decide_eq_true_eq,
        if_pos ha]

theorem filter_insertDesc_neg (a : EnrichedPost) (k : Nat × Int × Int)
    (l : List EnrichedPost) (ha : ¬ (keyOf a = k)) :
    (insertDesc a l).filter (fun e => decide (keyOf e = k)) =
      l.filter (fun e => decide (keyOf e = k)) := by
  induction l with
  | nil => simp [insertDesc, List.filter, ha]
  | cons b t ih =>
    by_cases hab : tripleLt (keyOf a) (keyOf b)
    · simp only [insertDesc, if_pos hab, List.filter_cons, decide_eq_true_eq, ih]
    · simp only [insertDesc, if_neg hab, List.filter_cons, decide_eq_true_eq,
        if_neg ha]

theorem rank_filter (l : List EnrichedPost) (k : Nat × Int × Int) :
    (rank l).filter (fun e => decide (keyOf e = k)) =
      l.filter (fun e => decide (keyOf e = k)) := by
  induction l with
  | nil => simp [rank]
  | cons a t ih =>
    by_cases ha : keyOf a = k
    · rw [rank, filter_insertDesc_pos a k (rank t) ha, ih,
        List.filter_cons, if_pos (by simpa using ha)]
    · rw [rank, filter_insertDesc_neg a k (rank t) ha, ih,
        List.filter_cons, if_neg (by simpa using ha)]

theorem insertDesc_perm (a : EnrichedPost) (l : List EnrichedPost) :
    List.Perm (insertDesc a l) (a :: l) := by
  induction l with
  | nil => exact List.Perm.refl _
  | cons b t ih =>
    by_cases h : tripleLt (keyOf a) (keyOf b)
    · simp only [insertDesc, if_pos h]
      exact (ih.cons b).trans (List.Perm.swap a b t)
    · simp only [insertDesc, if_neg h]
      exact List.Perm.refl _

theorem rank_perm (l : List EnrichedPost) : List.Perm (rank l) l := by
  induction l with
  | nil => exact List.Perm.refl _
  | cons a t ih => exact (insertDesc_perm a (rank t)).trans (ih.cons a)

theorem segIn_iff (p l : List Char) :
    segIn p l = true ↔ ∃ s t, l = s ++ p ++ t := by
  induction l with
  | nil =>
    simp only [segIn, List.isEmpty_iff]
    constructor
    · rintro rfl
      exact ⟨[], [], rfl⟩
    · rintro ⟨s, t, h⟩
      rcases List.append_eq_nil.mp h.symm with ⟨hsp, ht⟩
      exact (List.append_eq_nil.mp hsp).2
  | cons c cs ih =>
    simp only [segIn, Bool.or_eq_true, List.isPrefixOf_iff_prefix, ih]
    constructor
    · rintro (⟨t, ht⟩ | ⟨s, t, rfl⟩)
      · exact ⟨[], t, by simp [← ht]⟩
      · exact ⟨c :: s, t, rfl⟩
    · rintro ⟨s, t, h⟩
      cases s with
      | nil =>
        left
        exact ⟨t, by simpa using h.symm⟩
      | cons d s2 =>
        right
        simp only [List.cons_append] at h
        injection h with h1 h2
        exact ⟨s2, t, h2⟩

theorem pGet_setKey_self (r : List (String × JVal)) (k : String) (v : JVal) :
    pGet (setKey r k v) k = v := by
  induction r with
  | nil => simp [pGet, setKey, pGetD]
  | cons kv rest ih =>
    by_cases h : kv.1 == k
    · simp [setKey, h, pGet, pGetD]
    · simp only [setKey, if_neg h, pGet, pGetD] at ih ⊢
      simp [h, ih]

theorem fetchSub_created (cutoff : Int) (sub : String) (feed : List RawLivePost)
    (q : Post) (hq : q ∈ fetchSub cutoff sub feed) : cutoff ≤ q.created_utc := by
  induction feed with
  | nil => simp [fetchSub] at hq
  | cons r rest ih =>
    by_cases h : r.created_utc.getD 0 < cutoff
    · simp [fetchSub, h] at hq
    · simp only [fetchSub, if_neg h, List.mem_cons] at hq
      rcases hq with rfl | hq
      · show cutoff ≤ (livePostToPost sub r).created_utc
        simp only [livePostToPost]
        omega
      · exact ih hq

/-- C1: for every batch of enriched posts, `rank` orders the batch descending
by the key triple (keyword_hit_count, score, num_comments) in that priority;
posts equal on all three keys retain their relative input order (the sublist
of posts carrying any fixed key is unchanged by ranking); and on the concrete
batch A(hits 2, score 10), B(hits 2, score 20), C(hits 1, score 100) the
output order is B, A, C. -/
theorem C1_rank_descending_stable (l : List EnrichedPost) :
    ((rank l).Pairwise fun x y => tripleLe (keyOf y) (keyOf x)) ∧
    (∀ k : Nat × Int × Int,
      (rank l).filter (fun e => decide (keyOf e = k)) =
        l.filter (fun e => decide (keyOf e = k))) ∧
    rank [postA, postB, postC] = [postB, postA, postC] :=
  ⟨rank_pairwise l, fun k => rank_filter l k, by decide⟩

/-- C2: for every title, selftext and keyword list, `keyword_hits` returns
exactly the configured keywords whose lower-cased form occurs as a contiguous
substring of the lower-cased space-joined concatenation of title and
selftext: the result is a sublist of the configured list (original casing,
configured order), membership is exactly substring occurrence, a matching
keyword keeps its full configured multiplicity (duplicates in configuration
give duplicate hits), and on the concrete scenario (keywords "fix", "repair";
text "Need a Fix for my car") the result is ["fix"] with count 1. -/
theorem C2_keyword_matcher (title selftext : String) (kws : List String) :
    (keyword_hits (title ++ " " ++ selftext) kws).Sublist kws ∧
    (∀ k, k ∈ keyword_hits (title ++ " " ++ selftext) kws ↔
      k ∈ kws ∧ ∃ s t,
        (strLower (title ++ " " ++ selftext)).toList = s ++ (strLower k).toList ++ t) ∧
    (∀ k, (∃ s t,
        (strLower (title ++ " " ++ selftext)).toList = s ++ (strLower k).toList ++ t) →
      (keyword_hits (title ++ " " ++ selftext) kws).count k = kws.count k) ∧
    (keyword_hits ("Need a Fix for my car" ++ " " ++ "") ["fix", "repair"] = ["fix"] ∧
      (keyword_hits ("Need a Fix for my car" ++ " " ++ "") ["fix", "repair"]).length = 1) := by
  refine ⟨List.filter_sublist _, ?_, ?_, by decide, by decide⟩
  · intro k
    simp only [keyword_hits, List.mem_filter, strIn, segIn_iff]
  · intro k hk
    have hp : strIn (strLower k) (strLower (title ++ " " ++ selftext)) = true :=
      (segIn_iff _ _).mpr hk
    exact List.count_filter hp

/-- Witness for C2 at the spec's concrete matching scenario. -/
theorem C2_keyword_matcher_witness :
    (∃ s t, (strLower ("Need a Fix for my car" ++ " " ++ "")).toList =
        s ++ (strLower "fix").toList ++ t) ∧
    (keyword_hits ("Need a Fix for my car" ++ " " ++ "") ["fix", "repair"]).count "fix" =
      (["fix", "repair"] : List String).count "fix" :=
  ⟨⟨"need a ".toList, " for my car ".toList, by decide⟩,
    (C2_keyword_matcher "Need a Fix for my car" "" ["fix", "repair"]).2.2.1 "fix"
      ⟨"need a ".toList, " for my car ".toList, by decide⟩⟩

/-- C3: evaluation at the failing input: the matcher emits an empty keyword
for any text, because the empty pattern is a substring of every string; here
keywords [""] on text "hello" yield [""], while the claim requires that an
empty keyword never be emitted. -/
theorem C3_empty_keyword_emitted :
    keyword_hits "hello" [""] = [""] ∧ "" ∈ keyword_hits "hello" [""] :=
  ⟨by decide, by decide⟩

/-- C4: a post whose created_utc is strictly below now - hours * 3600 never
appears after subreddit/window filtering: it is absent from the mock filter's
output and from the live offline-branch filter's output, and every post kept
by the live fetch loop has created_utc at least the cutoff. -/
theorem C4_window_filtering (now hours : Int) (subs : List String)
    (posts : List Post) (p : Post) :
    (p.created_utc < now - hours * 3600 → p ∉ filter_posts_mock now hours subs posts) ∧
    (p.created_utc < now - hours * 3600 → p ∉ filter_posts_live now hours subs posts) ∧
    (∀ feeds : List (String × List RawLivePost), ∀ q : Post,
      q ∈ fetch_posts now hours feeds → now - hours * 3600 ≤ q.created_utc) := by
  refine ⟨?_, ?_, ?_⟩
  · intro hlt hmem
    have hcond := (List.mem_filter.mp hmem).2
    simp only [within_hours, Bool.and_eq_true, decide_eq_true_eq] at hcond
    omega
  · intro hlt hmem
    have hcond := (List.mem_filter.mp hmem).2
    simp only [Bool.and_eq_true, decide_eq_true_eq] at hcond
    omega
  · intro feeds q hq
    simp only [fetch_posts] at hq
    rcases List.mem_flatten.mp hq with ⟨lp, hlp, hql⟩
    rcases List.mem_map.mp hlp with ⟨sp, _, rfl⟩
    exact fetchSub_created _ _ _ _ hql

/-- Witness for C4: the concrete out-of-window post is rejected by the mock
filter and by the live offline filter. -/
theorem C4_window_filtering_witness :
    (oldPost.created_utc < 1000 - 1 * 3600) ∧
    oldPost ∉ filter_posts_mock 1000 1 [] [oldPost] ∧
    oldPost ∉ filter_posts_live 1000 1 [] [oldPost] :=
  ⟨by decide,
   (C4_window_filtering 1000 1 [] [oldPost] oldPost).1 (by decide),
   (C4_window_filtering 1000 1 [] [oldPost] oldPost).2.1 (by decide)⟩

/-- C5: every post produced by the enrichment step has keyword_hit_count
equal to the length of its keyword_hits, and the hits list itself is computed
by the matcher from the post's combined text, never set independently. -/
theorem C5_hit_count (keywords : List String) (posts : List Post)
    (e : EnrichedPost) (he : e ∈ enrich keywords posts) :
    e.keyword_hit_count = e.keyword_hits.length ∧
    e.keyword_hits = keyword_hits (e.title ++ " " ++ e.selftext) keywords := by
  rcases List.mem_map.mp he with ⟨p, _, rfl⟩
  exact ⟨rfl, rfl⟩

/-- Witness for C5 on the concrete scenario post. -/
theorem C5_hit_count_witness :
    fixEnriched ∈ enrich ["fix", "repair"] [fixPost] ∧
    fixEnriched.keyword_hit_count = fixEnriched.keyword_hits.length :=
  ⟨by decide, (C5_hit_count ["fix", "repair"] [fixPost] fixEnriched (by decide)).1⟩

/-- C6: a raw record whose created_utc is absent or falsy at enumerate index
i is assigned the synthetic timestamp now - i * 6 * 3600 by the live offline
loader's record cleaning and by the mock loader's in-place update; a larger
index gets a strictly older synthetic timestamp (earlier-indexed records look
newer); index 5 is assigned 30 hours before run time; and on the concrete
six-record dataset whose record at index 5 lacks created_utc, the mock loader
assigns that record 1000000 - 108000. -/
theorem C6_created_default (now : Int) (i : Nat) (r : List (String × JVal))
    (c : CleanedPost) :
    (pyFalsy (pGet r "created_utc") = true → cleanRecord now i r = Except.ok c →
      c.created_utc = now - (i : Int) * 6 * 3600) ∧
    (pyFalsy (pGet r "created_utc") = true →
      pGet (mockAssignCreated now i r) "created_utc" =
        JVal.int (now - (i : Int) * 6 * 3600)) ∧
    (∀ j : Nat, i < j →
      now - (j : Int) * 6 * 3600 < now - (i : Int) * 6 * 3600) ∧
    (now - (5 : Int) * 6 * 3600 = now - 30 * 3600) ∧
    load_posts 1000000 itemsDemo =
      Except.ok
        [RawItem.dict [("created_utc", JVal.int 1)],
         RawItem.dict [("created_utc", JVal.int 1)],
         RawItem.dict [("created_utc", JVal.int 1)],
         RawItem.dict [("created_utc", JVal.int 1)],
         RawItem.dict [("created_utc", JVal.int 1)],
         RawItem.dict [("id", JVal.str "p5"), ("created_utc", JVal.int 892000)]] := by
  refine ⟨?_, ?_, ?_, by omega, rfl⟩
  · intro hf hok
    simp only [cleanRecord, pyOr, hf, if_true, pyInt] at hok
    cases hs : normEngagement (pGet r "score") with
    | error e => rw [hs] at hok; exact Except.noConfusion hok
    | ok n =>
      cases hn : normEngagement (pGet r "num_comments") with
      | error e => rw [hs, hn] at hok; exact Except.noConfusion hok
      | ok m =>
        rw [hs, hn] at hok
        injection hok with h
        rw [← h]
  · intro hf
    unfold mockAssignCreated
    rw [if_pos hf]
    exact pGet_setKey_self r "created_utc" _
  · intro j hj
    omega

/-- Witness for C6 at index 5 of a record with no created_utc field, with run
time 1000000. -/
theorem C6_created_default_witness :
    pyFalsy (pGet [] "created_utc") = true ∧
    cDemo.created_utc = 1000000 - ((5 : Nat) : Int) * 6 * 3600 ∧
    pGet (mockAssignCreated 1000000 5 []) "created_utc" =
      JVal.int (1000000 - ((5 : Nat) : Int) * 6 * 3600) ∧
    (1000000 : Int) - ((6 : Nat) : Int) * 6 * 3600 <
      1000000 - ((5 : Nat) : Int) * 6 * 3600 :=
  ⟨by decide,
   (C6_created_default 1000000 5 [] cDemo).1 (by decide) (by rfl),
   (C6_created_default 1000000 5 [] cDemo).2.1 (by decide),
   (C6_created_default 1000000 5 [] cDemo).2.2.1 6 (by decide)⟩

/-- C7: evaluation at the failing input: on a dataset holding one well-formed
record followed by a bare non-mapping value, the mock-only loader raises
(attribute access on a non-mapping) and aborts the whole batch, whereas the
live-capable offline loader drops the non-mapping item silently and keeps
processing the rest. -/
theorem C7_nondict_aborts_mock :
    load_posts 0 [RawItem.dict [("id", JVal.str "a"), ("created_utc", JVal.int 5)],
        RawItem.nondict "42"] = Except.error "AttributeError" ∧
    load_mock_posts 0 [RawItem.dict [("id", JVal.str "a"), ("created_utc", JVal.int 5)],
        RawItem.nondict "42"] =
      Except.ok [{ subreddit := JVal.str "", id := JVal.str "a", title := JVal.str "",
                   selftext := JVal.str "", created_utc := 5, score := 0,
                   num_comments := 0, permalink := JVal.str "", url := JVal.str "" }] :=
  ⟨rfl, rfl⟩

/-- C8 counterexample: a record whose score field holds the truthy
non-numeric string "high" makes the offline normalization raise (the
ValueError of int applied to a non-numeric string) instead of assigning 0,
so the normalization of score and num_comments is not total. -/
theorem C8_counterexample :
    load_mock_posts 0 [RawItem.dict [("score", JVal.str "high")]] =
      Except.error "ValueError" := rfl

/-- C8 amended: the normalization of score and num_comments assigns 0 when
the field is absent or falsy and passes a truthy integer through unchanged,
but a present truthy value that is not coercible to an integer raises a
ValueError instead of being defaulted to 0. -/
theorem C8_engagement_normalization (v : JVal) (n : Int) (s : String) :
    (pyFalsy v = true → normEngagement v = Except.ok 0) ∧
    (normEngagement (JVal.int n) = Except.ok n) ∧
    (s ≠ "" → pyIntOfStr s = Except.error "ValueError" →
      normEngagement (JVal.str s) = Except.error "ValueError") := by
  refine ⟨?_, ?_, ?_⟩
  · intro hf
    simp [normEngagement, pyOr, hf, pyInt]
  · by_cases hn : n = 0
    · subst hn
      simp [normEngagement, pyOr, pyFalsy, pyInt]
    · simp [normEngagement, pyOr, pyFalsy, hn, pyInt]
  · intro hs hp
    have hne : pyFalsy (JVal.str s) = false := by
      simp [pyFalsy, hs]
    simp [normEngagement, pyOr, hne, pyInt, hp]

/-- Witness for C8 amended: a missing field gives 0, an integer passes
through, and the string "high" raises. -/
theorem C8_engagement_normalization_witness :
    pyFalsy JVal.null = true ∧
    normEngagement JVal.null = Except.ok 0 ∧
    normEngagement (JVal.int 7) = Except.ok 7 ∧
    normEngagement (JVal.str "high") = Except.error "ValueError" :=
  ⟨by decide,
   (C8_engagement_normalization JVal.null 7 "high").1 (by decide),
   (C8_engagement_normalization JVal.null 7 "high").2.1,
   (C8_engagement_normalization JVal.null 7 "high").2.2 (by decide) (by rfl)⟩

/-- C9 counterexample: ranking the concrete batch [A, B] leaves the batch's
list object holding [B, A]: the contents of the input sequence after the
ranking statement differ from the input contents, so the ranking step mutates
its input batch instead of leaving it unchanged. -/
theorem C9_counterexample : (sortStep [postA, postB]).2 ≠ [postA, postB] := by
  decide

/-- C9 amended: the ranking step is an in-place stable sort, not a pure
function: after the step the batch object holds a permutation of the input
elements in descending key order (and the call itself returns no new list). -/
theorem C9_rank_in_place (l : List EnrichedPost) :
    List.Perm (sortStep l).2 l ∧
    ((sortStep l).2.Pairwise fun x y => tripleLe (keyOf y) (keyOf x)) :=
  ⟨rank_perm l, rank_pairwise l⟩

/-- C10: with an empty subreddit allowlist the subreddit test degenerates to
true in both pipelines' filters, so every post passing the time-window
condition is kept: filtering an arbitrary batch with an empty allowlist
equals filtering by the window condition alone. -/
theorem C10_empty_allowlist (now hours : Int) (posts : List Post) :
    filter_posts_mock now hours [] posts =
      posts.filter (fun p => within_hours now p.created_utc hours) ∧
    filter_posts_live now hours [] posts =
      posts.filter (fun p => decide (p.created_utc ≥ now - hours * 3600)) := by
  constructor
  · simp [filter_posts_mock]
  · simp [filter_posts_live]
